import Mathlib

/-!
Verification of the HireRank frontend analysis logic against its
natural-language specification.

The definitions below are shallow embeddings of the JavaScript source:

* `deriveFound` / `deriveMissing` embed the found/missing derivation of
  `CandidateDetails.jsx` lines 107-110 (array membership on lowercased
  skill strings).
* `categorizeSkills` embeds the `categorizeSkills` helper of
  `CandidateDetails.jsx` lines 121-164 (substring keyword matching into
  four fixed buckets, first match wins, plus guess heuristics).
* `getScoreLabel` / `getScoreText` / `scoreDescription` embed the
  score-bracket helpers of `ResultsSection`, `ProgressBar` and the
  `CandidateDetails` score description.
* `validateAndSetFile` and `handleSubmit` embed the `UploadSection`
  validation and submit handlers.

JavaScript strings are modelled as Lean `String`; `toLowerCase` as
character-wise ASCII lowercasing; `String.prototype.includes` as an
infix check on the character list; `Array.prototype.includes` as
`List.any` with string equality; numbers holding scores as `Int`.
-/

namespace HR

/-- JavaScript `String.prototype.toLowerCase`, character-wise ASCII
lowercasing (the skill strings involved are ASCII). -/
def jsToLower (s : String) : String :=
  String.mk (s.data.map Char.toLower)

/-- Boolean check that `p` is a prefix of `l`. -/
def listPrefixB : List Char → List Char → Bool
  | [], _ => true
  | _ :: _, [] => false
  | a :: as, b :: bs => a == b && listPrefixB as bs

/-- Boolean check that `p` occurs as a contiguous sublist of `l`. -/
def listInfixB (p : List Char) : List Char → Bool
  | [] => listPrefixB p []
  | b :: bs => listPrefixB p (b :: bs) || listInfixB p bs

/-- JavaScript `s.includes(sub)`: `sub` occurs as a substring of `s`. -/
def strIncludes (s sub : String) : Bool :=
  listInfixB sub.data s.data

/-- JavaScript `Array.prototype.includes` on an array of strings. -/
def arrIncludes (l : List String) (x : String) : Bool :=
  l.any (fun y => y == x)

/-- `CandidateDetails.jsx` line 109:
`expected_skills.filter(s => skillsLower.includes(s.toLowerCase()))`
where `skillsLower = skills.map(s => s.toLowerCase())`. -/
def deriveFound (skills expected : List String) : List String :=
  expected.filter (fun s => arrIncludes (skills.map jsToLower) (jsToLower s))

/-- `CandidateDetails.jsx` line 110:
`expected_skills.filter(s => !skillsLower.includes(s.toLowerCase()))`. -/
def deriveMissing (skills expected : List String) : List String :=
  expected.filter (fun s => !(arrIncludes (skills.map jsToLower) (jsToLower s)))

theorem arrIncludes_iff (l : List String) (x : String) :
    arrIncludes l x = true ↔ x ∈ l := by
  simp [arrIncludes]

theorem arrIncludes_lower_iff (skills : List String) (s : String) :
    arrIncludes (skills.map jsToLower) (jsToLower s) = true ↔
      ∃ t, t ∈ skills ∧ jsToLower t = jsToLower s := by
  simp only [arrIncludes, List.any_eq_true, List.mem_map, beq_iff_eq]
  constructor
  · rintro ⟨y, ⟨t, ht, rfl⟩, h⟩
    exact ⟨t, ht, h⟩
  · rintro ⟨t, ht, h⟩
    exact ⟨jsToLower t, ⟨t, ht, rfl⟩, h⟩

theorem mem_deriveFound (skills expected : List String) (s : String) :
    s ∈ deriveFound skills expected ↔
      s ∈ expected ∧ ∃ t, t ∈ skills ∧ jsToLower t = jsToLower s := by
  rw [deriveFound, List.mem_filter]
  exact and_congr_right fun _ => arrIncludes_lower_iff skills s

theorem mem_deriveMissing (skills expected : List String) (s : String) :
    s ∈ deriveMissing skills expected ↔
      s ∈ expected ∧ ¬ ∃ t, t ∈ skills ∧ jsToLower t = jsToLower s := by
  rw [deriveMissing, List.mem_filter]
  refine and_congr_right fun _ => ⟨fun h hex => ?_, fun hnex => ?_⟩
  · rw [(arrIncludes_lower_iff skills s).mpr hex] at h
    simp at h
  · have hfalse : arrIncludes (skills.map jsToLower) (jsToLower s) = false := by
      cases hc : arrIncludes (skills.map jsToLower) (jsToLower s)
      · rfl
      · exact absurd ((arrIncludes_lower_iff skills s).mp hc) hnex
    rw [hfalse]
    rfl

/-- C1: the found/missing derivation of `CandidateDetails.jsx` lines
107-110 partitions `expected_skills`: the two lists are disjoint, and a
skill is expected iff it lands in exactly one of the two lists. -/
theorem c1_derivation_partitions (skills expected : List String) (s : String) :
    ¬ (s ∈ deriveFound skills expected ∧ s ∈ deriveMissing skills expected) ∧
    (s ∈ expected ↔
      s ∈ deriveFound skills expected ∨ s ∈ deriveMissing skills expected) := by
  rw [mem_deriveFound, mem_deriveMissing]
  by_cases h : ∃ t, t ∈ skills ∧ jsToLower t = jsToLower s
  · refine ⟨fun hc => hc.2.2 h, ⟨fun hs => Or.inl ⟨hs, h⟩, ?_⟩⟩
    rintro (hc | hc) <;> exact hc.1
  · refine ⟨fun hc => h hc.1.2, ⟨fun hs => Or.inr ⟨hs, h⟩, ?_⟩⟩
    rintro (hc | hc) <;> exact hc.1

/-- Witness for C1 at a concrete request: skills `["Python"]`,
expected `["Python", "AWS"]`, skill `"AWS"`. -/
theorem c1_witness :
    ¬ ("AWS" ∈ deriveFound ["Python"] ["Python", "AWS"] ∧
        "AWS" ∈ deriveMissing ["Python"] ["Python", "AWS"]) ∧
    ("AWS" ∈ (["Python", "AWS"] : List String) ↔
      "AWS" ∈ deriveFound ["Python"] ["Python", "AWS"] ∨
        "AWS" ∈ deriveMissing ["Python"] ["Python", "AWS"]) :=
  c1_derivation_partitions ["Python"] ["Python", "AWS"] "AWS"

/-- C2: the derivation reports an expected skill as found only on a
case-insensitive whole-string match against an entry of the skills
array, never by substring containment; in particular, if no skill entry
lowercases to `"java"` (e.g. the list `["JavaScript"]`), then `"Java"`
is never reported as found. -/
theorem c2_whole_string_match (skills expected : List String) :
    (∀ s, s ∈ deriveFound skills expected ↔
      s ∈ expected ∧ ∃ t, t ∈ skills ∧ jsToLower t = jsToLower s) ∧
    ((∀ t, t ∈ skills → jsToLower t ≠ "java") →
      "Java" ∉ deriveFound skills expected) := by
  refine ⟨fun s => mem_deriveFound skills expected s, fun h hmem => ?_⟩
  rcases (mem_deriveFound skills expected "Java").mp hmem with ⟨-, t, ht, hlow⟩
  exact h t ht (by rw [hlow]; rfl)

/-- Witness for C2: resume skills `["JavaScript"]`, expected `["Java"]`:
the hypothesis holds and `"Java"` is not reported as found. -/
theorem c2_witness :
    (∀ t, t ∈ (["JavaScript"] : List String) → jsToLower t ≠ "java") ∧
    "Java" ∉ deriveFound ["JavaScript"] ["Java"] :=
  ⟨by decide, (c2_whole_string_match ["JavaScript"] ["Java"]).2 (by decide)⟩

/-- The four fixed buckets of `categorizeSkills`
(`CandidateDetails.jsx` lines 122-127): there is no other bucket. -/
inductive SkillCat where
  | frontend
  | backend
  | database
  | infrastructure
deriving DecidableEq

/-- `categoryKeywords.frontend` (`CandidateDetails.jsx` line 130). -/
def frontendKeywords : List String :=
  ["react", "angular", "vue", "html", "css", "javascript", "typescript",
   "jquery", "bootstrap", "tailwind", "sass", "webpack", "vite", "next.js",
   "svelte"]

/-- `categoryKeywords.backend` (`CandidateDetails.jsx` line 131). -/
def backendKeywords : List String :=
  ["django", "flask", "fastapi", "node.js", "express", "spring", "java",
   "python", "ruby", "php", "laravel", ".net", "go", "rust", "scala",
   "kotlin"]

/-- `categoryKeywords.database` (`CandidateDetails.jsx` line 132). -/
def databaseKeywords : List String :=
  ["sql", "mysql", "postgresql", "mongodb", "redis", "cassandra", "oracle",
   "dynamodb", "elasticsearch", "neo4j", "mariadb", "firebase", "pandas",
   "numpy"]

/-- `categoryKeywords.infrastructure` (`CandidateDetails.jsx` line 133). -/
def infrastructureKeywords : List String :=
  ["aws", "azure", "gcp", "docker", "kubernetes", "jenkins", "gitlab",
   "github actions", "terraform", "ansible", "nginx", "apache", "linux",
   "ci/cd", "devops"]

def catKeywords : SkillCat → List String
  | .frontend => frontendKeywords
  | .backend => backendKeywords
  | .database => databaseKeywords
  | .infrastructure => infrastructureKeywords

/-- Iteration order of `Object.entries(categoryKeywords)`. -/
def catOrder : List SkillCat :=
  [.frontend, .backend, .database, .infrastructure]

/-- `CandidateDetails.jsx` line 141:
`skillLower.includes(keyword) || keyword.includes(skillLower)` —
bidirectional substring containment. -/
def keywordMatch (skillLower keyword : String) : Bool :=
  strIncludes skillLower keyword || strIncludes keyword skillLower

/-- The per-skill branch of the `skillsList.forEach` loop
(`CandidateDetails.jsx` lines 136-160): the first category in iteration
order with a substring keyword match wins; otherwise the guess
heuristics run; otherwise the skill is assigned nowhere. -/
def assignCat (skill : String) : Option SkillCat :=
  let skillLower := jsToLower skill
  match catOrder.find? (fun c => (catKeywords c).any (keywordMatch skillLower)) with
  | some c => some c
  | none =>
    if strIncludes skillLower "ml" || strIncludes skillLower "learning" ||
        strIncludes skillLower "ai" || strIncludes skillLower "tensorflow" ||
        strIncludes skillLower "pytorch" || strIncludes skillLower "keras" ||
        strIncludes skillLower "scikit" || strIncludes skillLower "nlp" then
      some .backend
    else if strIncludes skillLower "visual" || strIncludes skillLower "plot" ||
        strIncludes skillLower "matplotlib" || strIncludes skillLower "seaborn" then
      some .frontend
    else if strIncludes skillLower "jupyter" || strIncludes skillLower "notebook" then
      some .infrastructure
    else
      none

/-- The `categories` object built by `categorizeSkills`: exactly four
bucket lists, no other field. -/
structure SkillBuckets where
  frontend : List String
  backend : List String
  database : List String
  infrastructure : List String
deriving DecidableEq

def emptyBuckets : SkillBuckets := ⟨[], [], [], []⟩

/-- `categories[category].push(skill)`. -/
def pushCat (acc : SkillBuckets) (c : SkillCat) (skill : String) : SkillBuckets :=
  match c with
  | .frontend => { acc with frontend := acc.frontend ++ [skill] }
  | .backend => { acc with backend := acc.backend ++ [skill] }
  | .database => { acc with database := acc.database ++ [skill] }
  | .infrastructure => { acc with infrastructure := acc.infrastructure ++ [skill] }

/-- One step of the `forEach` loop body. -/
def categorizeStep (acc : SkillBuckets) (skill : String) : SkillBuckets :=
  match assignCat skill with
  | some c => pushCat acc c skill
  | none => acc

/-- `categorizeSkills` (`CandidateDetails.jsx` lines 121-164): fold the
loop body over the skills list starting from empty buckets. -/
def categorizeSkills (skillsList : List String) : SkillBuckets :=
  skillsList.foldl categorizeStep emptyBuckets

def bucket (c : SkillCat) (b : SkillBuckets) : List String :=
  match c with
  | .frontend => b.frontend
  | .backend => b.backend
  | .database => b.database
  | .infrastructure => b.infrastructure

theorem bucket_pushCat (acc : SkillBuckets) (c cp : SkillCat) (skill : String) :
    bucket c (pushCat acc cp skill) =
      if cp = c then bucket c acc ++ [skill] else bucket c acc := by
  cases c <;> cases cp <;> simp [bucket, pushCat]

theorem bucket_categorizeStep (acc : SkillBuckets) (c : SkillCat) (t : String) :
    bucket c (categorizeStep acc t) =
      bucket c acc ++ (if assignCat t = some c then [t] else []) := by
  rw [categorizeStep]
  cases hassign : assignCat t with
  | none => simp
  | some cp =>
    rw [bucket_pushCat]
    by_cases hc : cp = c <;> simp [hc]

theorem bucket_foldl (skills : List String) (acc : SkillBuckets) (c : SkillCat) :
    bucket c (skills.foldl categorizeStep acc) =
      bucket c acc ++ skills.filter (fun t => assignCat t = some c) := by
  induction skills generalizing acc with
  | nil => simp
  | cons t ts ih =>
    rw [List.foldl_cons, ih, bucket_categorizeStep]
    by_cases h : assignCat t = some c <;>
      simp [List.filter_cons, h, List.append_assoc]

/-- C3 (amended): each bucket of the category breakdown is exactly the
sublist of input skills whose `assignCat` is that category; hence every
skill occurrence lands in at most one bucket, and a skill with
`assignCat = none` lands in no bucket at all — it is silently dropped,
and no other bucket exists in the output structure. -/
theorem c3_buckets_characterization (skills : List String) (c : SkillCat) :
    bucket c (categorizeSkills skills) =
      skills.filter (fun t => assignCat t = some c) := by
  rw [categorizeSkills, bucket_foldl]
  cases c <;> rfl

/-- C3 counterexample: the soft skill `"Communication"` matches no
category keyword and no guess heuristic, so `categorizeSkills` returns
four empty buckets — the skill appears in no category of the output and
there is no reserved other bucket; it is silently discarded. -/
theorem c3_counterexample :
    categorizeSkills ["Communication"] = emptyBuckets := by decide

/-- C4 (amended): skill-to-category assignment uses bidirectional
substring containment, not whole-token boundaries: any skill whose
lowercasing contains, or is contained in, some frontend keyword is
assigned to the frontend bucket (checked first), whatever its other
matches. -/
theorem c4_substring_assigns_frontend (skill : String)
    (h : frontendKeywords.any (keywordMatch (jsToLower skill)) = true) :
    assignCat skill = some SkillCat.frontend := by
  rw [assignCat]
  simp only [catOrder, List.find?, catKeywords, h]

/-- Witness for C4 (amended) at skill `"Java"`: the frontend keyword
`"javascript"` contains `"java"` as a substring, so `"Java"` is
assigned to frontend. -/
theorem c4_witness :
    frontendKeywords.any (keywordMatch (jsToLower "Java")) = true ∧
    assignCat "Java" = some SkillCat.frontend :=
  ⟨by decide, c4_substring_assigns_frontend "Java" (by decide)⟩

/-- C4 counterexample: `"Java"` is placed in the frontend bucket (via
substring containment in the keyword `"javascript"`), not the backend
bucket that lists `"java"` as a keyword — assignment is by substring
containment, not whole-token boundaries. -/
theorem c4_counterexample :
    (categorizeSkills ["Java"]).frontend = ["Java"] ∧
    (categorizeSkills ["Java"]).backend = [] := by decide

/-- `getScoreLabel` from `ResultsSection` (lines 12-17). -/
def getScoreLabel (score : Int) : String :=
  if score ≥ 80 then "Excellent Match"
  else if score ≥ 60 then "Good Match"
  else if score ≥ 40 then "Moderate Match"
  else "Needs Review"

/-- `getScoreText` from `ProgressBar` (lines 605-610). -/
def getScoreText (score : Int) : String :=
  if score ≥ 80 then "Excellent Match"
  else if score ≥ 60 then "Good Match"
  else if score ≥ 40 then "Moderate Match"
  else "Needs Review"

/-- The score description rendered by `CandidateDetails.jsx` lines
254-259: JSX renders each conjunct-guarded string when its guard holds
and nothing otherwise, so the paragraph is the concatenation of the
strings whose guards hold. -/
def scoreDescription (score : Int) : String :=
  (if score ≥ 80 then
    "Excellent match! This candidate has strong alignment with the job requirements."
   else "") ++
  (if score ≥ 60 ∧ score < 80 then
    "Good match. This candidate has most of the required skills."
   else "") ++
  (if score ≥ 40 ∧ score < 60 then
    "Moderate match. Consider for interview if other factors are strong."
   else "") ++
  (if score < 40 then
    "Low match. This candidate may need additional training or experience."
   else "")

/-- C5 (amended): the fallback label is a total function of the score
keyed by the fixed brackets, in both `ResultsSection.getScoreLabel` and
`ProgressBar.getScoreText`, and the returned label is a fixed string
containing no digits — in particular it does not include the count of
found vs. missing skills. -/
theorem c5_label_brackets (score : Int) :
    (80 ≤ score →
      getScoreLabel score = "Excellent Match" ∧
      getScoreText score = "Excellent Match") ∧
    (60 ≤ score ∧ score < 80 →
      getScoreLabel score = "Good Match" ∧
      getScoreText score = "Good Match") ∧
    (40 ≤ score ∧ score < 60 →
      getScoreLabel score = "Moderate Match" ∧
      getScoreText score = "Moderate Match") ∧
    (score < 40 →
      getScoreLabel score = "Needs Review" ∧
      getScoreText score = "Needs Review") ∧
    (getScoreLabel score).data.all (fun c => !c.isDigit) = true := by
  rw [getScoreLabel, getScoreText]
  split_ifs with h1 h2 h3 <;>
    refine ⟨fun h => ?_, fun h => ?_, fun h => ?_, fun h => ?_, by decide⟩ <;>
    first
      | exact ⟨rfl, rfl⟩
      | omega

/-- Witness for C5 (amended) at scores 90 and 45. -/
theorem c5_witness :
    (getScoreLabel 90 = "Excellent Match" ∧ getScoreText 90 = "Excellent Match") ∧
    (getScoreLabel 45 = "Moderate Match" ∧ getScoreText 45 = "Moderate Match") :=
  ⟨(c5_label_brackets 90).1 (by decide),
   (c5_label_brackets 45).2.2.1 ⟨by decide, by decide⟩⟩

/-- C5 counterexample: at score 90 the fallback label is the fixed
string `"Excellent Match"`, which contains no digit at all — contrary
to the claim that the label always includes the count of found vs.
missing skills, no count (no numeral) appears in it. -/
theorem c5_counterexample :
    getScoreLabel 90 = "Excellent Match" ∧
    "Excellent Match".data.any Char.isDigit = false := by
  constructor
  · rfl
  · decide

/-- The four score tiers of the bracket logic. -/
inductive Tier where
  | excellent
  | good
  | moderate
  | low
deriving DecidableEq

/-- Which tier a score label string denotes. -/
def tierOfLabel (s : String) : Option Tier :=
  if s = "Excellent Match" then some .excellent
  else if s = "Good Match" then some .good
  else if s = "Moderate Match" then some .moderate
  else if s = "Needs Review" then some .low
  else none

/-- Which tier a `CandidateDetails` score description denotes. -/
def tierOfDescription (s : String) : Option Tier :=
  if s = "Excellent match! This candidate has strong alignment with the job requirements." then
    some .excellent
  else if s = "Good match. This candidate has most of the required skills." then
    some .good
  else if s = "Moderate match. Consider for interview if other factors are strong." then
    some .moderate
  else if s = "Low match. This candidate may need additional training or experience." then
    some .low
  else none

/-- C9: for every integer score, `ResultsSection.getScoreLabel` and
`ProgressBar.getScoreText` return the same string, and the
`CandidateDetails` score description selects the same bracket tier as
that label (which always denotes one of the four tiers). -/
theorem c9_brackets_agree (score : Int) :
    getScoreLabel score = getScoreText score ∧
    tierOfDescription (scoreDescription score) = tierOfLabel (getScoreLabel score) ∧
    (tierOfLabel (getScoreLabel score)).isSome = true := by
  by_cases h80 : score ≥ 80
  · have hl : getScoreLabel score = "Excellent Match" := by
      rw [getScoreLabel, if_pos h80]
    have ht : getScoreText score = "Excellent Match" := by
      rw [getScoreText, if_pos h80]
    rw [hl, ht, scoreDescription, if_pos h80,
      if_neg (by omega : ¬(score ≥ 60 ∧ score < 80)),
      if_neg (by omega : ¬(score ≥ 40 ∧ score < 60)),
      if_neg (by omega : ¬score < 40)]
    exact ⟨rfl, by decide, by decide⟩
  · by_cases h60 : score ≥ 60
    · have hl : getScoreLabel score = "Good Match" := by
        rw [getScoreLabel, if_neg h80, if_pos h60]
      have ht : getScoreText score = "Good Match" := by
        rw [getScoreText, if_neg h80, if_pos h60]
      rw [hl, ht, scoreDescription, if_neg h80,
        if_pos (by omega : score ≥ 60 ∧ score < 80),
        if_neg (by omega : ¬(score ≥ 40 ∧ score < 60)),
        if_neg (by omega : ¬score < 40)]
      exact ⟨rfl, by decide, by decide⟩
    · by_cases h40 : score ≥ 40
      · have hl : getScoreLabel score = "Moderate Match" := by
          rw [getScoreLabel, if_neg h80, if_neg h60, if_pos h40]
        have ht : getScoreText score = "Moderate Match" := by
          rw [getScoreText, if_neg h80, if_neg h60, if_pos h40]
        rw [hl, ht, scoreDescription, if_neg h80,
          if_neg (by omega : ¬(score ≥ 60 ∧ score < 80)),
          if_pos (by omega : score ≥ 40 ∧ score < 60),
          if_neg (by omega : ¬score < 40)]
        exact ⟨rfl, by decide, by decide⟩
      · have hl : getScoreLabel score = "Needs Review" := by
          rw [getScoreLabel, if_neg h80, if_neg h60, if_neg h40]
        have ht : getScoreText score = "Needs Review" := by
          rw [getScoreText, if_neg h80, if_neg h60, if_neg h40]
        rw [hl, ht, scoreDescription, if_neg h80,
          if_neg (by omega : ¬(score ≥ 60 ∧ score < 80)),
          if_neg (by omega : ¬(score ≥ 40 ∧ score < 60)),
          if_pos (by omega : score < 40)]
        exact ⟨rfl, by decide, by decide⟩

/-- A candidate file as seen by `validateAndSetFile`: its MIME type
string and its size in bytes. -/
structure JsFile where
  ftype : String
  size : Nat
deriving DecidableEq

/-- `validTypes` (`UploadSection` lines 24-31). -/
def validTypes : List String :=
  ["application/pdf",
   "application/vnd.openxmlformats-officedocument.wordprocessingml.document",
   "application/msword",
   "image/jpeg",
   "image/jpg",
   "image/png"]

/-- `maxSize = 10 * 1024 * 1024` (`UploadSection` line 32). -/
def maxSize : Nat := 10 * 1024 * 1024

/-- `validateAndSetFile` (`UploadSection` lines 23-45), returning the
new selected file (the previous one when validation fails) together
with the error message reported through `onError`, if any. -/
def validateAndSetFile (file : JsFile) (prev : Option JsFile) :
    Option JsFile × Option String :=
  if ¬ (validTypes.contains file.ftype = true) then
    (prev, some "Please upload a PDF, DOCX, or image file (JPG, PNG) only")
  else if file.size > maxSize then
    (prev, some "File size must be less than 10MB")
  else
    (some file, none)

/-- C10: `validateAndSetFile` sets the candidate file as selected, with
no error, exactly when its MIME type is in the valid list and its size
is at most `10 * 1024 * 1024` bytes; otherwise it reports an error and
leaves the previously selected file unchanged. -/
theorem c10_validate_iff (file : JsFile) (prev : Option JsFile) :
    (validTypes.contains file.ftype = true ∧ file.size ≤ maxSize →
      validateAndSetFile file prev = (some file, none)) ∧
    (¬ (validTypes.contains file.ftype = true ∧ file.size ≤ maxSize) →
      (validateAndSetFile file prev).1 = prev ∧
      ((validateAndSetFile file prev).2).isSome = true) := by
  rw [validateAndSetFile]
  split_ifs with htype hsize
  · exact ⟨fun h => absurd h.2 (by omega), fun _ => ⟨rfl, rfl⟩⟩
  · exact ⟨fun _ => rfl, fun h => absurd ⟨htype, by omega⟩ h⟩
  · exact ⟨fun h => absurd h.1 htype, fun _ => ⟨rfl, rfl⟩⟩

/-- Witness for C10: a 100-byte PDF is accepted and selected; an
oversized PDF is rejected and leaves the selection unchanged. -/
theorem c10_witness :
    validateAndSetFile ⟨"application/pdf", 100⟩ none =
      (some ⟨"application/pdf", 100⟩, none) ∧
    (validateAndSetFile ⟨"application/pdf", 10485761⟩ none).1 = none :=
  ⟨(c10_validate_iff ⟨"application/pdf", 100⟩ none).1 ⟨by decide, by decide⟩,
   ((c10_validate_iff ⟨"application/pdf", 10485761⟩ none).2
      (fun h => by exact absurd h.2 (by decide))).1⟩

/-- The characters stripped by `String.prototype.trim` on the ASCII
range. -/
def jsWhitespace (c : Char) : Bool :=
  c = ' ' || c = '\t' || c = '\n' || c = '\r' || c = '\x0b' || c = '\x0c'

/-- JavaScript `s.trim()`: strip leading and trailing whitespace. -/
def jsTrim (s : String) : String :=
  String.mk (((s.data.dropWhile jsWhitespace).reverse.dropWhile jsWhitespace).reverse)

/-- Outcome of the `handleSubmit` handler: either an error reported
through `onError` (no analysis performed), or a call to
`analyzeResume` with the given file, job title and optional trimmed
description. -/
inductive SubmitOutcome where
  | err (msg : String)
  | scored (file : JsFile) (title : String) (desc : Option String)
deriving DecidableEq

def SubmitOutcome.isErr : SubmitOutcome → Bool
  | .err _ => true
  | .scored _ _ _ => false

/-- `handleSubmit` (`UploadSection` lines 67-110): guard on a selected
file, then on a non-blank job title, then call `analyzeResume` with
`jobDescription.trim() || null`. -/
def handleSubmit (selectedFile : Option JsFile)
    (jobTitle jobDescription : String) : SubmitOutcome :=
  match selectedFile with
  | none => .err "Please select a resume file"
  | some f =>
    if jsTrim jobTitle = "" then .err "Please enter a job title"
    else
      .scored f jobTitle
        (if jsTrim jobDescription = "" then none else some (jsTrim jobDescription))

/-- C7: for every request whose job title is empty or whitespace-only
(its trim is empty), `handleSubmit` reports an input error to the
caller and performs no scoring call at all — in particular it returns
no score of 0 or 100, since no analysis outcome is produced. -/
theorem c7_empty_title_error (selectedFile : Option JsFile)
    (jobTitle jobDescription : String) (h : jsTrim jobTitle = "") :
    (∃ msg, handleSubmit selectedFile jobTitle jobDescription =
      SubmitOutcome.err msg) ∧
    (handleSubmit selectedFile jobTitle jobDescription).isErr = true := by
  cases selectedFile with
  | none => exact ⟨⟨"Please select a resume file", rfl⟩, rfl⟩
  | some f =>
    rw [handleSubmit, if_pos h]
    exact ⟨⟨"Please enter a job title", rfl⟩, rfl⟩

/-- Witness for C7: a selected PDF with a whitespace-only job title
yields an error outcome. -/
theorem c7_witness :
    jsTrim "   " = "" ∧
    (handleSubmit (some ⟨"application/pdf", 100⟩) "   " "").isErr = true :=
  ⟨by decide,
   (c7_empty_title_error (some ⟨"application/pdf", 100⟩) "   " "" (by decide)).2⟩

/-- Everything the analysis view derives from one request: the
found/missing lists (`CandidateDetails.jsx` lines 107-110), their
category breakdowns (lines 167-168), and the score label/description. -/
structure AnalysisView where
  found : List String
  missing : List String
  catFound : SkillBuckets
  catMissing : SkillBuckets
  label : String
  description : String
deriving DecidableEq

/-- The full frontend analysis pipeline on one request: derive
found/missing from the skills and expected skills, categorize both, and
render the score label and description. -/
def analyzeView (skills expected : List String) (score : Int) : AnalysisView :=
  let f := deriveFound skills expected
  let m := deriveMissing skills expected
  { found := f
    missing := m
    catFound := categorizeSkills f
    catMissing := categorizeSkills m
    label := getScoreLabel score
    description := scoreDescription score }

/-- C8: with the generative adapter out of the picture, the analysis is
deterministic — two runs on equal (resume skills, expected skills,
score) inputs produce equal derived found/missing lists, category
breakdowns, and score labels. The pipeline is a pure function of its
inputs: no clock, randomness, or external state enters it. -/
theorem c8_deterministic (skills1 expected1 : List String) (score1 : Int)
    (skills2 expected2 : List String) (score2 : Int)
    (hs : skills1 = skills2) (he : expected1 = expected2)
    (hc : score1 = score2) :
    analyzeView skills1 expected1 score1 = analyzeView skills2 expected2 score2 := by
  rw [hs, he, hc]

/-- Witness for C8: two runs on the Scenario A inputs with score 75
agree. -/
theorem c8_witness :
    analyzeView ["Python", "React", "Docker"] ["Python", "React", "Docker", "AWS"] 75 =
      analyzeView ["Python", "React", "Docker"] ["Python", "React", "Docker", "AWS"] 75 :=
  c8_deterministic ["Python", "React", "Docker"] ["Python", "React", "Docker", "AWS"] 75
    ["Python", "React", "Docker"] ["Python", "React", "Docker", "AWS"] 75 rfl rfl rfl

/-- The result object consumed by `CandidateDetails`. JavaScript result
objects are open records, so besides the destructured `skills_found` and
`skills_missing` fields the object may carry a category-breakdown field;
the destructuring in the component (`CandidateDetails.jsx` lines 83-100)
names no such field and the code never reads one. -/
structure ResultData where
  skills_found : List String
  skills_missing : List String
  carried : Option SkillBuckets
deriving DecidableEq

/-- `CandidateDetails.jsx` line 167: the breakdown the component
displays for the found skills is computed in the component itself by
`categorizeSkills(displaySkillsFound)`. -/
def displayedFoundBreakdown (r : ResultData) : SkillBuckets :=
  categorizeSkills r.skills_found

/-- Modelled from the spec: the Fit Score Aggregator (§4.4) that
resolves the canonical category breakdown is backend code absent from
src/. Per §4.1 and §4.4 it assigns each skill by a whole-token (exact,
case-insensitive) match against the taxonomy keyword lists, first
category in the fixed order winning, and the FitScore carries the
resolved breakdown to the presentation layer. -/
def specAssignCat (skill : String) : Option SkillCat :=
  catOrder.find? (fun c => arrIncludes (catKeywords c) (jsToLower skill))

/-- Modelled from the spec: the already-resolved category breakdown
carried in a FitScore, built from the whole-token assignment above. -/
def specResolvedBreakdown (found : List String) : SkillBuckets :=
  found.foldl
    (fun acc skill =>
      match specAssignCat skill with
      | some c => pushCat acc c skill
      | none => acc)
    emptyBuckets

/-- C6 (amended): the presentation layer recomputes categorization
downstream: the displayed breakdown is a function of the found list
alone, computed by its own `categorizeSkills`, and is
independent of any already-resolved breakdown the result carries. -/
theorem c6_recomputed_downstream (r1 r2 : ResultData)
    (h : r1.skills_found = r2.skills_found) :
    displayedFoundBreakdown r1 = displayedFoundBreakdown r2 := by
  rw [displayedFoundBreakdown, displayedFoundBreakdown, h]

/-- Witness for C6 (amended): two results with the same found list but
different carried breakdowns display the same breakdown — the carried
data is ignored. -/
theorem c6_witness :
    displayedFoundBreakdown ⟨["Java"], [], none⟩ =
      displayedFoundBreakdown ⟨["Java"], [], some emptyBuckets⟩ :=
  c6_recomputed_downstream ⟨["Java"], [], none⟩ ⟨["Java"], [], some emptyBuckets⟩ rfl

/-- C6 counterexample: for a result whose found list is `["Java"]` and
which carries the aggregator-resolved breakdown (`"Java"` in backend,
by whole-token taxonomy match), the component displays a different
breakdown (`"Java"` in frontend, recomputed by substring matching) —
the displayed breakdown is not the already-resolved data the result
carries. -/
theorem c6_counterexample :
    specResolvedBreakdown ["Java"] = ⟨[], ["Java"], [], []⟩ ∧
    displayedFoundBreakdown ⟨["Java"], [], some (specResolvedBreakdown ["Java"])⟩ ≠
      specResolvedBreakdown ["Java"] := by
  constructor
  · decide
  · decide

end HR
